import Mathlib

/-!
Shallow embedding of the system-catalog and client-session core of the
repository (master/sys_catalog.cc and client/client.h), together with
theorems checking the natural-language specification against it.

Conventions of the embedding:
* kudu::Status is a code plus a message; machinery that the sources call
  but that is not part of the sources (protobuf serialization, the RPC
  messenger, the row iterator) is passed in as explicit function
  parameters or abstract data, so every definition stays executable.
* Fallible C++ paths returning Status become Except Status values.
-/

namespace Kudu

/-- Status codes of kudu::Status, as listed in the error taxonomy. -/
inductive StatusCode where
  | Ok
  | NotFound
  | AlreadyPresent
  | Corruption
  | InvalidArgument
  | IOError
  | NetworkError
  | TimedOut
  | ServiceUnavailable
  | IllegalState
  | Aborted
deriving DecidableEq, Repr

/-- A kudu::Status value: a code and a human-readable message. -/
structure Status where
  code : StatusCode
  msg : String
deriving DecidableEq, Repr

def Status.OK : Status := ⟨StatusCode.Ok, ""⟩

def Status.corruption (m : String) : Status := ⟨StatusCode.Corruption, m⟩

def Status.illegalState (m : String) : Status := ⟨StatusCode.IllegalState, m⟩

def Status.isOK (s : Status) : Bool := s.code == StatusCode.Ok

/-- Column data types used by the catalog schema. -/
inductive DataType where
  | UINT8
  | STRING
deriving DecidableEq, Repr

/-- One column of a schema: name, type, and whether it is a key column. -/
structure ColumnSchema where
  name : String
  ctype : DataType
  is_key : Bool
deriving DecidableEq, Repr

/-- A schema is the ordered list of its columns (key columns first, as
produced by SchemaBuilder.AddKeyColumn / AddColumn). -/
structure Schema where
  columns : List ColumnSchema
deriving DecidableEq, Repr

def kSysCatalogTabletId : String := "00000000000000000000000000000000"

def kSysCatalogTableColType : String := "entry_type"

def kSysCatalogTableColId : String := "entry_id"

def kSysCatalogTableColMetadata : String := "metadata"

/-- Entry-type value for table rows (sys-tables enum value TABLES, 0). -/
def TABLES_ENTRY : Nat := 0

/-- Entry-type value for tablet rows (sys-tables enum value TABLETS, 1). -/
def TABLETS_ENTRY : Nat := 1

/-- SysCatalogTable::BuildTableSchema: two key columns
(entry_type UINT8, entry_id STRING) and one value column (metadata STRING). -/
def buildTableSchema : Schema :=
  ⟨[⟨kSysCatalogTableColType, DataType.UINT8, true⟩,
    ⟨kSysCatalogTableColId, DataType.STRING, true⟩,
    ⟨kSysCatalogTableColMetadata, DataType.STRING, false⟩]⟩

/-- A host and port pair (HostPortPB). -/
structure HostPortPB where
  host : String
  port : Nat
deriving DecidableEq, Repr

/-- Peer roles from QuorumPeerPB. -/
inductive Role where
  | LEADER
  | FOLLOWER
  | CANDIDATE
deriving DecidableEq, Repr

/-- QuorumPeerPB: uuid and address are optional protobuf fields. -/
structure QuorumPeerPB where
  permanent_uuid : Option String
  last_known_addr : Option HostPortPB
  role : Role
deriving DecidableEq, Repr

/-- QuorumPB: sequence number, locality flag and ordered peer list.
The protobuf field named local is embedded here as is_local. -/
structure QuorumPB where
  seqno : Int
  is_local : Bool
  peers : List QuorumPeerPB
deriving DecidableEq, Repr

/-- Master startup options, per the quorum-configuration interface:
IsDistributed, leader, follower_addresses, leader_address. -/
structure MasterOptions where
  leader : Bool
  follower_addresses : List HostPortPB
  leader_address : HostPortPB
  distributed : Bool
deriving DecidableEq, Repr

def MasterOptions.IsDistributed (o : MasterOptions) : Bool := o.distributed

def quorumUuids (q : QuorumPB) : List String :=
  q.peers.filterMap (fun p => p.permanent_uuid)

def peerUuidOk (p : QuorumPeerPB) : Bool :=
  match p.permanent_uuid with
  | some u => decide (u ≠ "")
  | none => false

def peerAddrOk (p : QuorumPeerPB) : Bool :=
  match p.last_known_addr with
  | some a => decide (a.host ≠ "")
  | none => true

def countLeaders (q : QuorumPB) : Nat :=
  (q.peers.filter (fun p => p.role == Role.LEADER)).length

def hasLeaderOrCandidate (q : QuorumPB) : Bool :=
  q.peers.any (fun p => p.role == Role.LEADER || p.role == Role.CANDIDATE)

/-- Modelled from the spec: consensus::Consensus::VerifyQuorum is not among
the source files; the spec describes the verify phase as checking unique
non-empty UUIDs, role counts consistent with the local flag, at least one
LEADER or CANDIDATE, and well-formed addresses. -/
def quorumCheck (q : QuorumPB) : Bool :=
  q.peers.all peerUuidOk
    && decide (quorumUuids q).Nodup
    && (if q.is_local then
          decide (q.peers.length = 1) && decide (countLeaders q = 1)
        else decide (countLeaders q ≤ 1))
    && hasLeaderOrCandidate q
    && q.peers.all peerAddrOk

def verifyQuorum (q : QuorumPB) : Except Status QuorumPB :=
  if quorumCheck q then Except.ok q
  else Except.error (Status.illegalState "Invalid quorum")

/-- Resolution of one peer: peers that already carry a permanent_uuid are
kept; the others get their uuid from the remote lookup
(consensus::SetPermanentUuidForRemotePeer, abstracted as the function r). -/
def resolvePeer (r : QuorumPeerPB → Except Status String) (p : QuorumPeerPB) :
    Except Status QuorumPeerPB :=
  match p.permanent_uuid with
  | some _ => Except.ok p
  | none =>
      match r p with
      | Except.error e => Except.error e
      | Except.ok u => Except.ok { p with permanent_uuid := some u }

def resolvePeers (r : QuorumPeerPB → Except Status String) :
    List QuorumPeerPB → Except Status (List QuorumPeerPB)
  | [] => Except.ok []
  | p :: ps =>
      match resolvePeer r p with
      | Except.error e => Except.error e
      | Except.ok p2 =>
          match resolvePeers r ps with
          | Except.error e => Except.error e
          | Except.ok rest => Except.ok (p2 :: rest)

/-- Peer enumeration phase of SetupDistributedQuorum: one FOLLOWER peer per
follower address, then the local peer (LEADER when options.leader, else
FOLLOWER), then — when the local peer is not the leader — a CANDIDATE peer
for the remote leader. -/
def declaredPeers (opts : MasterOptions) (first_rpc : HostPortPB) :
    List QuorumPeerPB :=
  (opts.follower_addresses.map
    (fun hp => (⟨none, some hp, Role.FOLLOWER⟩ : QuorumPeerPB)))
  ++ [⟨none, some first_rpc,
       if opts.leader then Role.LEADER else Role.FOLLOWER⟩]
  ++ (if opts.leader then []
      else [(⟨none, some opts.leader_address, Role.CANDIDATE⟩ : QuorumPeerPB)])

/-- SysCatalogTable::SetupDistributedQuorum: enumerate declared peers,
resolve missing uuids in peer order, and verify. The quorum carries the
given seqno and local = false. -/
def setupDistributedQuorum (opts : MasterOptions) (first_rpc : HostPortPB)
    (seqno : Int) (r : QuorumPeerPB → Except Status String) :
    Except Status QuorumPB :=
  match resolvePeers r (declaredPeers opts first_rpc) with
  | Except.error e => Except.error e
  | Except.ok resolved => verifyQuorum ⟨seqno, false, resolved⟩

/-- Bootstrap states of TabletMetadata. -/
inductive TabletDataState where
  | NEW
  | BOOTSTRAPPING
  | REMOTE_BOOTSTRAP_DONE
  | FAILED
deriving DecidableEq, Repr

/-- Result of SysCatalogTable::CreateNew: the TabletMetadata it creates and
the quorum it persists through ConsensusMetadata::Create. -/
structure CreateOutcome where
  meta_schema : Schema
  start_state : TabletDataState
  quorum : QuorumPB
deriving DecidableEq, Repr

/-- SysCatalogTable::CreateNew: create TabletMetadata with the fixed schema
and REMOTE_BOOTSTRAP_DONE, then build the initial quorum with seqno 0 —
by full distributed setup when distributed, otherwise a single local LEADER
peer carrying the FsManager uuid — and persist it. -/
def sysCatalogCreateNew (opts : MasterOptions) (first_rpc : HostPortPB)
    (r : QuorumPeerPB → Except Status String) (fs_uuid : String) :
    Except Status CreateOutcome :=
  match (if opts.IsDistributed then
           setupDistributedQuorum opts first_rpc 0 r
         else
           Except.ok (⟨0, true, [⟨some fs_uuid, none, Role.LEADER⟩]⟩ : QuorumPB)) with
  | Except.error e => Except.error e
  | Except.ok quorum =>
      Except.ok ⟨buildTableSchema, TabletDataState.REMOTE_BOOTSTRAP_DONE, quorum⟩

/-- Input to SysCatalogTable::Load: the TabletMetadata read from disk and
the committed quorum found in ConsensusMetadata. -/
structure LoadInput where
  meta_schema : Schema
  old_quorum : QuorumPB
deriving DecidableEq, Repr

/-- Result of SysCatalogTable::Load: the quorum flushed to ConsensusMetadata,
when the distributed branch ran. -/
structure LoadOutcome where
  flushed_quorum : Option QuorumPB
deriving DecidableEq, Repr

/-- SysCatalogTable::Load: reject a persisted schema different from the
compiled-in catalog schema with Corruption; when distributed, rebuild the
quorum with the previously committed seqno plus one and flush it; finally
bring the tablet online. -/
def sysCatalogLoad (opts : MasterOptions) (first_rpc : HostPortPB)
    (r : QuorumPeerPB → Except Status String) (inp : LoadInput) :
    Except Status LoadOutcome :=
  if inp.meta_schema = buildTableSchema then
    if opts.IsDistributed then
      match setupDistributedQuorum opts first_rpc (inp.old_quorum.seqno + 1) r with
      | Except.error e => Except.error e
      | Except.ok q => Except.ok ⟨some q⟩
    else
      Except.ok ⟨none⟩
  else
    Except.error (Status.corruption "Unexpected schema")

/-- Row operation types of RowOperationsPB. -/
inductive RowOpType where
  | INSERT
  | UPDATE
  | DELETE
deriving DecidableEq, Repr

/-- One encoded row operation against the catalog schema. DELETE rows carry
only the key columns, so metadata is none there. -/
structure RowOp where
  op_type : RowOpType
  entry_type : Nat
  entry_id : String
  metadata : Option (List Nat)
deriving DecidableEq, Repr

/-- A WriteRequestPB as built by the catalog mutations:
tablet id, schema, and the encoded row operations. -/
structure WriteRequestPB where
  tablet_id : String
  schema : Schema
  row_operations : List RowOp
deriving DecidableEq, Repr

/-- An AppStatusPB carried inside write responses. -/
structure AppStatusPB where
  code : StatusCode
  message : String
deriving DecidableEq, Repr

/-- StatusFromPB: decode an AppStatusPB back into a Status. -/
def statusFromPB (p : AppStatusPB) : Status := ⟨p.code, p.message⟩

/-- A per-row error of WriteResponsePB. -/
structure PerRowErrorPB where
  row_index : Nat
  error : AppStatusPB
deriving DecidableEq, Repr

/-- The tablet-level error of WriteResponsePB. -/
structure TabletServerErrorPB where
  status : AppStatusPB
deriving DecidableEq, Repr

/-- A WriteResponsePB: optional tablet-level error plus per-row errors. -/
structure WriteResponsePB where
  error : Option TabletServerErrorPB
  per_row_errors : List PerRowErrorPB
deriving DecidableEq, Repr

/-- The WARNING line logged for one failed row in SyncWrite. -/
def rowErrorLogLine (e : PerRowErrorPB) : String :=
  "row " ++ toString e.row_index ++ ": " ++ (statusFromPB e.error).msg

/-- The tail of SysCatalogTable::SyncWrite, once the response has arrived:
a tablet-level error is decoded and returned first; otherwise per-row
errors are each logged and aggregated into one Corruption; otherwise OK.
The second component is the list of log lines emitted. -/
def syncWriteRespond (resp : WriteResponsePB) : Status × List String :=
  match resp.error with
  | some e => (statusFromPB e.status, [])
  | none =>
      if resp.per_row_errors.length > 0 then
        (Status.corruption "One or more rows failed to write",
         resp.per_row_errors.map rowErrorLogLine)
      else
        (Status.OK, [])

/-- A TableInfo as the mutations see it: id, dirty name, the dirty metadata
protobuf (its serialized bytes), and whether SerializeToString succeeds. -/
structure TableInfo where
  id : String
  dirty_name : String
  dirty_pb : List Nat
  ser_ok : Bool
deriving DecidableEq, Repr

/-- A TabletInfo as the mutations see it. -/
structure TabletInfo where
  tablet_id : String
  dirty_pb : List Nat
  ser_ok : Bool
deriving DecidableEq, Repr

/-- SysCatalogTable::AddTable: serialize the dirty metadata (Corruption on
failure) and submit one INSERT row keyed (TABLES_ENTRY, table id). -/
def addTable (table : TableInfo) : Except Status WriteRequestPB :=
  if table.ser_ok then
    Except.ok ⟨kSysCatalogTabletId, buildTableSchema,
      [⟨RowOpType.INSERT, TABLES_ENTRY, table.id, some table.dirty_pb⟩]⟩
  else
    Except.error (Status.corruption
      ("Unable to serialize SysCatalogTablesEntryPB for tablet: " ++ table.dirty_name))

/-- SysCatalogTable::UpdateTable: like AddTable but with an UPDATE row. -/
def updateTable (table : TableInfo) : Except Status WriteRequestPB :=
  if table.ser_ok then
    Except.ok ⟨kSysCatalogTabletId, buildTableSchema,
      [⟨RowOpType.UPDATE, TABLES_ENTRY, table.id, some table.dirty_pb⟩]⟩
  else
    Except.error (Status.corruption
      ("Unable to serialize SysCatalogTablesEntryPB for tablet: " ++ table.id))

/-- SysCatalogTable::DeleteTable: one DELETE row with only the key columns.
The source sets the request tablet id to kSysCatalogTableColMetadata. -/
def deleteTable (table : TableInfo) : Except Status WriteRequestPB :=
  Except.ok ⟨kSysCatalogTableColMetadata, buildTableSchema,
    [⟨RowOpType.DELETE, TABLES_ENTRY, table.id, none⟩]⟩

/-- The row operation AddTabletsToPB encodes for one tablet. -/
def mkTabletOp (op : RowOpType) (t : TabletInfo) : RowOp :=
  ⟨op, TABLETS_ENTRY, t.tablet_id, some t.dirty_pb⟩

/-- SysCatalogTable::AddTabletsToPB: encode one row per tablet with the
given operation type, failing with Corruption on the first tablet whose
metadata does not serialize. -/
def addTabletsToPB (op : RowOpType) : List TabletInfo → Except Status (List RowOp)
  | [] => Except.ok []
  | t :: ts =>
      if t.ser_ok then
        match addTabletsToPB op ts with
        | Except.error e => Except.error e
        | Except.ok rest => Except.ok (mkTabletOp op t :: rest)
      else
        Except.error (Status.corruption
          ("Unable to serialize SysCatalogTabletsEntryPB for tablet: " ++ t.tablet_id))

/-- SysCatalogTable::AddAndUpdateTablets: one request against the catalog
tablet holding the INSERT rows for the tablets to add followed by the
UPDATE rows for the tablets to update, then a single SyncWrite. -/
def addAndUpdateTablets (tablets_to_add tablets_to_update : List TabletInfo) :
    Except Status WriteRequestPB :=
  match (if tablets_to_add.isEmpty then Except.ok []
         else addTabletsToPB RowOpType.INSERT tablets_to_add) with
  | Except.error e => Except.error e
  | Except.ok addOps =>
      match (if tablets_to_update.isEmpty then Except.ok []
             else addTabletsToPB RowOpType.UPDATE tablets_to_update) with
      | Except.error e => Except.error e
      | Except.ok updOps =>
          Except.ok ⟨kSysCatalogTabletId, buildTableSchema, addOps ++ updOps⟩

/-- SysCatalogTable::AddTablets delegates to AddAndUpdateTablets with an
empty update list. -/
def addTablets (tablets : List TabletInfo) : Except Status WriteRequestPB :=
  addAndUpdateTablets tablets []

/-- SysCatalogTable::UpdateTablets delegates to AddAndUpdateTablets with an
empty add list. -/
def updateTablets (tablets : List TabletInfo) : Except Status WriteRequestPB :=
  addAndUpdateTablets [] tablets

/-- SysCatalogTable::DeleteTablets: one DELETE row per tablet, submitted to
the catalog tablet in a single request. -/
def deleteTablets (tablets : List TabletInfo) : Except Status WriteRequestPB :=
  Except.ok ⟨kSysCatalogTabletId, buildTableSchema,
    tablets.map (fun t => ⟨RowOpType.DELETE, TABLETS_ENTRY, t.tablet_id, none⟩)⟩

/-- Run a catalog mutation end to end against a response oracle: a failed
request build submits nothing; a built request is submitted by exactly one
SyncWrite. Returns the final status, the submitted requests, and the log
lines. -/
def runMutation (respond : WriteRequestPB → WriteResponsePB) :
    Except Status WriteRequestPB → Status × List WriteRequestPB × List String
  | Except.error e => (e, [], [])
  | Except.ok req =>
      let out := syncWriteRespond (respond req)
      (out.1, [req], out.2)

/-- The scan set up by VisitTables / VisitTablets: the single-column range
predicate (lower and upper bound on one column), the arena bounds, and the
RowBlock capacity. -/
structure ScanConfig where
  pred_column : String
  lower : Nat
  upper : Nat
  arena_initial : Nat
  arena_max : Nat
  block_capacity : Nat
deriving DecidableEq, Repr

/-- The scan configuration built by SysCatalogTable::VisitTables. -/
def visitTablesConfig : ScanConfig :=
  ⟨kSysCatalogTableColType, TABLES_ENTRY, TABLES_ENTRY, 32 * 1024, 256 * 1024, 512⟩

/-- The scan configuration built by SysCatalogTable::VisitTablets. -/
def visitTabletsConfig : ScanConfig :=
  ⟨kSysCatalogTableColType, TABLETS_ENTRY, TABLETS_ENTRY, 32 * 1024, 256 * 1024, 512⟩

/-- One row of a RowBlock as the visit loops see it: the selection-vector
bit and the two columns the visitors extract. -/
structure ScanRow where
  selected : Bool
  entry_id : String
  metadata : List Nat
deriving DecidableEq, Repr

/-- The deserialized metadata of a TABLES row. -/
structure SysTablesEntryPB where
  raw : List Nat
deriving DecidableEq, Repr

/-- The deserialized metadata of a TABLETS row; carries the parent table. -/
structure SysTabletsEntryPB where
  table_id : String
  raw : List Nat
deriving DecidableEq, Repr

/-- SysCatalogTable::VisitTableFromRow: parse the metadata column, then
invoke the visitor with the entry id and the parsed descriptor. -/
def visitTableFromRow (parse : List Nat → Except Status SysTablesEntryPB)
    (visitor : String → SysTablesEntryPB → Except Status Unit)
    (row : ScanRow) : Except Status Unit :=
  match parse row.metadata with
  | Except.error e => Except.error e
  | Except.ok md => visitor row.entry_id md

/-- SysCatalogTable::VisitTabletFromRow: parse the metadata column, then
invoke the visitor with the parent table id, the tablet id and the parsed
descriptor. -/
def visitTabletFromRow (parse : List Nat → Except Status SysTabletsEntryPB)
    (visitor : String → String → SysTabletsEntryPB → Except Status Unit)
    (row : ScanRow) : Except Status Unit :=
  match parse row.metadata with
  | Except.error e => Except.error e
  | Except.ok md => visitor md.table_id row.entry_id md

/-- Inner loop over one RowBlock: rows not selected by the selection vector
are skipped; the first failure is returned immediately. -/
def visitBlockRows (f : ScanRow → Except Status Unit) :
    List ScanRow → Except Status Unit
  | [] => Except.ok ()
  | r :: rs =>
      if r.selected then
        match f r with
        | Except.error e => Except.error e
        | Except.ok _ => visitBlockRows f rs
      else
        visitBlockRows f rs

/-- Outer loop over the blocks delivered by the row iterator. -/
def visitRowBlocks (f : ScanRow → Except Status Unit) :
    List (List ScanRow) → Except Status Unit
  | [] => Except.ok ()
  | b :: bs =>
      match visitBlockRows f b with
      | Except.error e => Except.error e
      | Except.ok _ => visitRowBlocks f bs

/-- Linear reference visit: apply f to each row in order, stopping at the
first failure. -/
def seqVisit (f : ScanRow → Except Status Unit) :
    List ScanRow → Except Status Unit
  | [] => Except.ok ()
  | r :: rs =>
      match f r with
      | Except.error e => Except.error e
      | Except.ok _ => seqVisit f rs

/-- SysCatalogTable::VisitTables, with the iterator abstracted as the list
of row blocks it delivers. -/
def visitTables (parse : List Nat → Except Status SysTablesEntryPB)
    (visitor : String → SysTablesEntryPB → Except Status Unit)
    (blocks : List (List ScanRow)) : Except Status Unit :=
  visitRowBlocks (visitTableFromRow parse visitor) blocks

/-- SysCatalogTable::VisitTablets, with the iterator abstracted as the list
of row blocks it delivers. -/
def visitTablets (parse : List Nat → Except Status SysTabletsEntryPB)
    (visitor : String → String → SysTabletsEntryPB → Except Status Unit)
    (blocks : List (List ScanRow)) : Except Status Unit :=
  visitRowBlocks (visitTabletFromRow parse visitor) blocks

/-- Session flush modes of KuduSession. -/
inductive FlushMode where
  | AUTO_FLUSH_SYNC
  | AUTO_FLUSH_BACKGROUND
  | MANUAL_FLUSH
deriving DecidableEq, Repr

/-- Client-visible state of a KuduSession: the flush mode, the buffered
operations, the in-flight operations, and whether Close succeeded. -/
structure KuduSessionState where
  flush_mode : FlushMode
  write_buffer : List Nat
  in_flight : List Nat
  closed : Bool
deriving DecidableEq, Repr

/-- KuduSession::HasPendingOperations: true while operations are buffered
or in flight. -/
def hasPendingOperations (s : KuduSessionState) : Bool :=
  !(s.write_buffer.isEmpty && s.in_flight.isEmpty)

/-- Modelled from the spec: the body of KuduSession::Close is not among the
source files (client.h only declares it, returning an error if there are
unflushed or in-flight operations). Close fails with IllegalState while
operations are pending, leaving the session untouched; otherwise it
detaches the session. -/
def sessionClose (s : KuduSessionState) : Status × KuduSessionState :=
  if hasPendingOperations s then
    (Status.illegalState "Operations still pending", s)
  else
    (Status.OK, { s with closed := true })

/-- Modelled from the spec: the body of KuduSession::Flush is not among the
source files. Flush drains all buffered and in-flight operations and
returns OK exactly when every operation succeeded; the per-operation
outcome is abstracted as the function op_result. -/
def sessionFlush (op_result : Nat → Bool) (s : KuduSessionState) :
    Status × KuduSessionState :=
  let failed := (s.write_buffer ++ s.in_flight).filter (fun o => !(op_result o))
  ((if failed.isEmpty then Status.OK
    else (⟨StatusCode.IOError, "Some operations failed"⟩ : Status)),
   { s with write_buffer := [], in_flight := [] })

/-! Helper lemmas shared by the claim theorems. -/

theorem verifyQuorum_ok_eq (qq q : QuorumPB) (h : verifyQuorum qq = Except.ok q) :
    q = qq := by
  unfold verifyQuorum at h
  split at h
  · cases h; rfl
  · cases h

theorem setupDistributedQuorum_ok_shape (opts : MasterOptions) (fr : HostPortPB)
    (s : Int) (r : QuorumPeerPB → Except Status String) (q : QuorumPB)
    (h : setupDistributedQuorum opts fr s r = Except.ok q) :
    q.seqno = s ∧ q.is_local = false := by
  unfold setupDistributedQuorum at h
  generalize hres : resolvePeers r (declaredPeers opts fr) = res at h
  cases res with
  | error e => cases h
  | ok peers =>
      have hq := verifyQuorum_ok_eq _ _ h
      exact ⟨by rw [hq], by rw [hq]⟩

theorem addTabletsToPB_all_ok (op : RowOpType) (ts : List TabletInfo)
    (h : ∀ t ∈ ts, t.ser_ok = true) :
    addTabletsToPB op ts = Except.ok (ts.map (mkTabletOp op)) := by
  induction ts with
  | nil => rfl
  | cons t ts ih =>
      have ht : t.ser_ok = true := h t (List.mem_cons_self t ts)
      have hrest := ih (fun x hx => h x (List.mem_cons_of_mem t hx))
      simp [addTabletsToPB, ht, hrest, bind, Except.bind]

theorem addTabletsToPB_guard_ok (op : RowOpType) (ts : List TabletInfo)
    (h : ∀ t ∈ ts, t.ser_ok = true) :
    (if ts.isEmpty then Except.ok [] else addTabletsToPB op ts) =
      Except.ok (ts.map (mkTabletOp op)) := by
  cases ts with
  | nil => rfl
  | cons t ts => simpa using addTabletsToPB_all_ok op (t :: ts) h

theorem addAndUpdateTablets_ok (toAdd toUpdate : List TabletInfo)
    (hAdd : ∀ t ∈ toAdd, t.ser_ok = true)
    (hUpd : ∀ t ∈ toUpdate, t.ser_ok = true) :
    addAndUpdateTablets toAdd toUpdate =
      Except.ok ⟨kSysCatalogTabletId, buildTableSchema,
        toAdd.map (mkTabletOp RowOpType.INSERT)
          ++ toUpdate.map (mkTabletOp RowOpType.UPDATE)⟩ := by
  unfold addAndUpdateTablets
  rw [addTabletsToPB_guard_ok RowOpType.INSERT toAdd hAdd,
      addTabletsToPB_guard_ok RowOpType.UPDATE toUpdate hUpd]

/-! Claim theorems. -/

/-- C1 (code bug): six of the seven catalog mutations submit their write to
the well-known catalog tablet id, but DeleteTable sets the tablet id of its
request to the metadata column name "metadata", which differs from the
catalog tablet id. Evaluated at concrete inputs. -/
theorem deleteTable_submits_metadata_as_tablet_id :
    (deleteTable ⟨"t1", "table one", [7], true⟩).map WriteRequestPB.tablet_id
        = Except.ok kSysCatalogTableColMetadata
    ∧ kSysCatalogTableColMetadata ≠ kSysCatalogTabletId
    ∧ (addTable ⟨"t1", "table one", [7], true⟩).map WriteRequestPB.tablet_id
        = Except.ok kSysCatalogTabletId
    ∧ (updateTable ⟨"t1", "table one", [7], true⟩).map WriteRequestPB.tablet_id
        = Except.ok kSysCatalogTabletId
    ∧ (addTablets [⟨"p1", [7], true⟩]).map WriteRequestPB.tablet_id
        = Except.ok kSysCatalogTabletId
    ∧ (updateTablets [⟨"p1", [7], true⟩]).map WriteRequestPB.tablet_id
        = Except.ok kSysCatalogTabletId
    ∧ (deleteTablets [⟨"p1", [7], true⟩]).map WriteRequestPB.tablet_id
        = Except.ok kSysCatalogTabletId
    ∧ (addAndUpdateTablets [⟨"p1", [7], true⟩] [⟨"p2", [8], true⟩]).map
          WriteRequestPB.tablet_id
        = Except.ok kSysCatalogTabletId :=
  ⟨rfl, by decide, rfl, rfl, rfl, rfl, rfl, rfl⟩

/-- C5: when the master is not distributed, CreateNew persists a quorum
with seqno 0, local = true, and exactly one peer whose role is LEADER and
whose permanent uuid is the FsManager uuid. -/
theorem createNew_standalone_single_leader (opts : MasterOptions)
    (fr : HostPortPB) (r : QuorumPeerPB → Except Status String)
    (fs_uuid : String) (h : opts.IsDistributed = false) :
    sysCatalogCreateNew opts fr r fs_uuid =
      Except.ok ⟨buildTableSchema, TabletDataState.REMOTE_BOOTSTRAP_DONE,
        ⟨0, true, [⟨some fs_uuid, none, Role.LEADER⟩]⟩⟩ := by
  simp [sysCatalogCreateNew, h, bind, Except.bind]

/-- Witness for C5 at a concrete standalone configuration. -/
theorem createNew_standalone_single_leader_witness :
    (MasterOptions.IsDistributed ⟨false, [], ⟨"l", 1⟩, false⟩ = false)
    ∧ sysCatalogCreateNew ⟨false, [], ⟨"l", 1⟩, false⟩ ⟨"h", 2⟩
        (fun _ => Except.ok "unused") "the-fs-uuid" =
      Except.ok ⟨buildTableSchema, TabletDataState.REMOTE_BOOTSTRAP_DONE,
        ⟨0, true, [⟨some "the-fs-uuid", none, Role.LEADER⟩]⟩⟩ :=
  ⟨rfl, createNew_standalone_single_leader _ _ _ _ rfl⟩

/-- C6: Load returns Corruption when the persisted TabletMetadata schema
differs from the compiled-in catalog schema, so the tablet is never brought
online. -/
theorem load_schema_mismatch_corruption (opts : MasterOptions)
    (fr : HostPortPB) (r : QuorumPeerPB → Except Status String)
    (inp : LoadInput) (h : inp.meta_schema ≠ buildTableSchema) :
    sysCatalogLoad opts fr r inp =
      Except.error (Status.corruption "Unexpected schema") := by
  simp [sysCatalogLoad, h]

/-- Witness for C6 at a concrete mismatched schema (empty column list). -/
theorem load_schema_mismatch_corruption_witness :
    ((⟨⟨[]⟩, ⟨0, true, []⟩⟩ : LoadInput).meta_schema ≠ buildTableSchema)
    ∧ sysCatalogLoad ⟨false, [], ⟨"l", 1⟩, false⟩ ⟨"h", 2⟩
        (fun _ => Except.ok "unused") ⟨⟨[]⟩, ⟨0, true, []⟩⟩ =
      Except.error (Status.corruption "Unexpected schema") :=
  ⟨by decide, load_schema_mismatch_corruption _ _ _ _ (by decide)⟩

/-- C10: AddTablets and UpdateTablets are AddAndUpdateTablets specialized
with an empty update list (respectively an empty add list). -/
theorem addTablets_updateTablets_are_specializations (ts : List TabletInfo) :
    addTablets ts = addAndUpdateTablets ts []
    ∧ updateTablets ts = addAndUpdateTablets [] ts :=
  ⟨rfl, rfl⟩

/-- Witness for C10 at a concrete one-tablet list. -/
theorem addTablets_updateTablets_are_specializations_witness :
    addTablets [⟨"p9", [3], true⟩] = addAndUpdateTablets [⟨"p9", [3], true⟩] []
    ∧ updateTablets [⟨"p9", [3], true⟩] = addAndUpdateTablets [] [⟨"p9", [3], true⟩] :=
  addTablets_updateTablets_are_specializations [⟨"p9", [3], true⟩]

/-- C9: Close on a session with buffered or in-flight operations returns
IllegalState and leaves the session state unchanged; after a Flush the
session has no pending operations and Close succeeds. -/
theorem close_with_pending_ops_illegal_state (s : KuduSessionState)
    (op_result : Nat → Bool) (h : hasPendingOperations s = true) :
    (sessionClose s).1.code = StatusCode.IllegalState
    ∧ (sessionClose s).2 = s
    ∧ hasPendingOperations (sessionFlush op_result s).2 = false
    ∧ (sessionClose (sessionFlush op_result s).2).1 = Status.OK
    ∧ (sessionClose (sessionFlush op_result s).2).2.closed = true := by
  refine ⟨?_, ?_, ?_, ?_, ?_⟩
  · rw [sessionClose, if_pos h]
    rfl
  · rw [sessionClose, if_pos h]
  · simp [sessionFlush, hasPendingOperations]
  · simp [sessionClose, sessionFlush, hasPendingOperations]
  · simp [sessionClose, sessionFlush, hasPendingOperations]

/-- Witness for C9 at a concrete session with one buffered operation. -/
theorem close_with_pending_ops_illegal_state_witness :
    (hasPendingOperations ⟨FlushMode.MANUAL_FLUSH, [1], [], false⟩ = true)
    ∧ ((sessionClose ⟨FlushMode.MANUAL_FLUSH, [1], [], false⟩).1.code
          = StatusCode.IllegalState
      ∧ (sessionClose ⟨FlushMode.MANUAL_FLUSH, [1], [], false⟩).2
          = ⟨FlushMode.MANUAL_FLUSH, [1], [], false⟩
      ∧ hasPendingOperations
          (sessionFlush (fun _ => true) ⟨FlushMode.MANUAL_FLUSH, [1], [], false⟩).2 = false
      ∧ (sessionClose
          (sessionFlush (fun _ => true) ⟨FlushMode.MANUAL_FLUSH, [1], [], false⟩).2).1
          = Status.OK
      ∧ (sessionClose
          (sessionFlush (fun _ => true) ⟨FlushMode.MANUAL_FLUSH, [1], [], false⟩).2).2.closed
          = true) :=
  ⟨rfl, close_with_pending_ops_illegal_state _ (fun _ => true) rfl⟩

/-- C2: AddAndUpdateTablets places one INSERT row per tablet to add and one
UPDATE row per tablet to update into a single write request against the
catalog tablet, and submits that request through exactly one SyncWrite
call. -/
theorem addAndUpdateTablets_single_batch (toAdd toUpdate : List TabletInfo)
    (respond : WriteRequestPB → WriteResponsePB)
    (h : ∀ t ∈ toAdd ++ toUpdate, t.ser_ok = true) :
    ∃ req, addAndUpdateTablets toAdd toUpdate = Except.ok req
      ∧ req.tablet_id = kSysCatalogTabletId
      ∧ req.row_operations =
          toAdd.map (mkTabletOp RowOpType.INSERT)
            ++ toUpdate.map (mkTabletOp RowOpType.UPDATE)
      ∧ (runMutation respond (addAndUpdateTablets toAdd toUpdate)).2.1 = [req] := by
  have hAdd : ∀ t ∈ toAdd, t.ser_ok = true :=
    fun t ht => h t (List.mem_append_left _ ht)
  have hUpd : ∀ t ∈ toUpdate, t.ser_ok = true :=
    fun t ht => h t (List.mem_append_right _ ht)
  have he := addAndUpdateTablets_ok toAdd toUpdate hAdd hUpd
  refine ⟨_, he, rfl, rfl, ?_⟩
  rw [he]
  rfl

/-- Witness for C2: one tablet to add and one to update. -/
theorem addAndUpdateTablets_single_batch_witness :
    (∀ t ∈ ([⟨"p1", [1], true⟩] ++ [⟨"p2", [2], true⟩] : List TabletInfo),
        t.ser_ok = true)
    ∧ ∃ req,
        addAndUpdateTablets [⟨"p1", [1], true⟩] [⟨"p2", [2], true⟩] = Except.ok req
        ∧ req.tablet_id = kSysCatalogTabletId
        ∧ req.row_operations =
            ([⟨"p1", [1], true⟩] : List TabletInfo).map (mkTabletOp RowOpType.INSERT)
              ++ ([⟨"p2", [2], true⟩] : List TabletInfo).map (mkTabletOp RowOpType.UPDATE)
        ∧ (runMutation (fun _ => ⟨none, []⟩)
            (addAndUpdateTablets [⟨"p1", [1], true⟩] [⟨"p2", [2], true⟩])).2.1 = [req] :=
  ⟨by decide, addAndUpdateTablets_single_batch _ _ _ (by decide)⟩

/-- A write response carrying both a tablet-level error and a per-row
error. -/
def respBothErrors : WriteResponsePB :=
  ⟨some ⟨⟨StatusCode.NotFound, "missing tablet"⟩⟩,
   [⟨0, ⟨StatusCode.AlreadyPresent, "row already present"⟩⟩]⟩

/-- C7 counterexample: on a response that carries both a tablet-level error
and a per-row error, SyncWrite returns the decoded tablet-level status
(here NotFound), not Corruption, although the response carries at least one
per-row error. -/
theorem syncWrite_row_error_not_corruption_counterexample :
    respBothErrors.per_row_errors.length > 0
    ∧ (syncWriteRespond respBothErrors).1 = ⟨StatusCode.NotFound, "missing tablet"⟩
    ∧ (syncWriteRespond respBothErrors).1.code ≠ StatusCode.Corruption :=
  ⟨by decide, rfl, by decide⟩

/-- C7 (amended): the tablet-level error is checked first and returned as
the decoded status with no per-row logging; only otherwise does a non-empty
per-row error list produce Corruption with one log line per failed row;
otherwise SyncWrite returns OK. -/
theorem syncWrite_error_precedence (resp : WriteResponsePB) :
    (∀ e, resp.error = some e →
        syncWriteRespond resp = (statusFromPB e.status, []))
    ∧ (resp.error = none → resp.per_row_errors ≠ [] →
        syncWriteRespond resp =
          (Status.corruption "One or more rows failed to write",
           resp.per_row_errors.map rowErrorLogLine))
    ∧ (resp.error = none → resp.per_row_errors = [] →
        syncWriteRespond resp = (Status.OK, [])) := by
  refine ⟨?_, ?_, ?_⟩
  · intro e he
    simp [syncWriteRespond, he]
  · intro he hr
    have hlen : 0 < resp.per_row_errors.length := List.length_pos.mpr hr
    simp [syncWriteRespond, he, hlen]
  · intro he hr
    simp [syncWriteRespond, he, hr]

/-- A write response carrying only per-row errors. -/
def respRowErrorsOnly : WriteResponsePB :=
  ⟨none, [⟨2, ⟨StatusCode.InvalidArgument, "bad key"⟩⟩]⟩

/-- Witness for the amended C7 on a response with per-row errors only. -/
theorem syncWrite_error_precedence_witness :
    respRowErrorsOnly.error = none
    ∧ respRowErrorsOnly.per_row_errors ≠ []
    ∧ syncWriteRespond respRowErrorsOnly =
        (Status.corruption "One or more rows failed to write",
         respRowErrorsOnly.per_row_errors.map rowErrorLogLine) :=
  ⟨rfl, by decide, (syncWrite_error_precedence respRowErrorsOnly).2.1 rfl (by decide)⟩

theorem seqVisit_append (f : ScanRow → Except Status Unit) (xs ys : List ScanRow) :
    seqVisit f (xs ++ ys) =
      (match seqVisit f xs with
       | Except.error e => Except.error e
       | Except.ok _ => seqVisit f ys) := by
  induction xs with
  | nil => rfl
  | cons x xs ih =>
      simp only [List.cons_append, seqVisit]
      cases f x <;> simp [ih]

theorem visitBlockRows_eq_seqVisit (f : ScanRow → Except Status Unit)
    (rs : List ScanRow) :
    visitBlockRows f rs = seqVisit f (rs.filter (fun r => r.selected)) := by
  induction rs with
  | nil => rfl
  | cons r rs ih =>
      cases hr : r.selected with
      | true =>
          simp only [visitBlockRows, hr, if_true, List.filter_cons, seqVisit]
          cases f r <;> simp [ih]
      | false =>
          simp [visitBlockRows, hr, List.filter_cons, ih]

theorem visitRowBlocks_eq_seqVisit (f : ScanRow → Except Status Unit)
    (blocks : List (List ScanRow)) :
    visitRowBlocks f blocks =
      seqVisit f ((blocks.flatten).filter (fun r => r.selected)) := by
  induction blocks with
  | nil => rfl
  | cons b bs ih =>
      simp only [visitRowBlocks, List.flatten_cons, List.filter_append, seqVisit_append]
      rw [visitBlockRows_eq_seqVisit f b, ih]

/-- C8: VisitTables and VisitTablets configure a single-column range
predicate on entry_type with lower = upper = TABLES (resp. TABLETS), blocks
of at most 512 rows, and an arena of 32 KiB initial and 256 KiB maximum
size; their block-structured loop visits exactly the selected rows in
order, parsing each metadata column and stopping at the first visitor or
parse failure. -/
theorem visitTables_visitTablets_scan_shape :
    visitTablesConfig =
      ⟨kSysCatalogTableColType, TABLES_ENTRY, TABLES_ENTRY, 32 * 1024, 256 * 1024, 512⟩
    ∧ visitTabletsConfig =
      ⟨kSysCatalogTableColType, TABLETS_ENTRY, TABLETS_ENTRY, 32 * 1024, 256 * 1024, 512⟩
    ∧ (∀ (parse : List Nat → Except Status SysTablesEntryPB)
         (visitor : String → SysTablesEntryPB → Except Status Unit)
         (blocks : List (List ScanRow)),
        visitTables parse visitor blocks =
          seqVisit (visitTableFromRow parse visitor)
            ((blocks.flatten).filter (fun r => r.selected)))
    ∧ (∀ (parse : List Nat → Except Status SysTabletsEntryPB)
         (visitor : String → String → SysTabletsEntryPB → Except Status Unit)
         (blocks : List (List ScanRow)),
        visitTablets parse visitor blocks =
          seqVisit (visitTabletFromRow parse visitor)
            ((blocks.flatten).filter (fun r => r.selected))) :=
  ⟨rfl, rfl,
   fun _ _ blocks => visitRowBlocks_eq_seqVisit _ blocks,
   fun _ _ blocks => visitRowBlocks_eq_seqVisit _ blocks⟩

/-- C4: on a successful Load, the distributed branch flushes a quorum whose
seqno is exactly the previously committed seqno plus one (hence strictly
larger), and the non-distributed branch flushes nothing, leaving the
committed seqno unchanged. -/
theorem load_flushed_seqno (opts : MasterOptions) (fr : HostPortPB)
    (r : QuorumPeerPB → Except Status String) (inp : LoadInput)
    (out : LoadOutcome) (h : sysCatalogLoad opts fr r inp = Except.ok out) :
    (opts.IsDistributed = true →
      ∃ q, out.flushed_quorum = some q
        ∧ q.seqno = inp.old_quorum.seqno + 1
        ∧ inp.old_quorum.seqno < q.seqno)
    ∧ (opts.IsDistributed = false → out.flushed_quorum = none) := by
  unfold sysCatalogLoad at h
  by_cases hs : inp.meta_schema = buildTableSchema
  · rw [if_pos hs] at h
    constructor
    · intro hd
      rw [hd, if_pos rfl] at h
      generalize hsq :
        setupDistributedQuorum opts fr (inp.old_quorum.seqno + 1) r = sres at h
      cases sres with
      | error e => cases h
      | ok q =>
          simp only [Except.ok.injEq] at h
          subst h
          refine ⟨q, rfl, ?_, ?_⟩
          · exact (setupDistributedQuorum_ok_shape _ _ _ _ _ hsq).1
          · rw [(setupDistributedQuorum_ok_shape _ _ _ _ _ hsq).1]
            exact lt_add_one _
    · intro hd
      rw [hd, if_neg Bool.false_ne_true] at h
      simp only [Except.ok.injEq] at h
      subst h
      rfl
  · rw [if_neg hs] at h
    cases h

/-- Witness for C4 on a concrete distributed restart with old seqno 5. -/
theorem load_flushed_seqno_witness :
    ∃ q, (LoadOutcome.mk
        (some ⟨6, false, [⟨some "uuid-local", some ⟨"me", 5⟩, Role.LEADER⟩]⟩)).flushed_quorum
          = some q
      ∧ q.seqno = (5 : Int) + 1 ∧ (5 : Int) < q.seqno :=
  (load_flushed_seqno ⟨true, [], ⟨"lead", 9⟩, true⟩ ⟨"me", 5⟩
      (fun _ => Except.ok "uuid-local") ⟨buildTableSchema, ⟨5, false, []⟩⟩
      ⟨some ⟨6, false, [⟨some "uuid-local", some ⟨"me", 5⟩, Role.LEADER⟩]⟩⟩
      (by rfl)).1 rfl

/-- C3: with followers A and B, remote leader L, and a non-leader local
peer, SetupDistributedQuorum at seqno 0 yields a quorum with seqno 0,
local false, and exactly four peers in order — FOLLOWER A, FOLLOWER B, the
local FOLLOWER, and a CANDIDATE for L — each carrying the uuid obtained by
the remote lookup, since none of the declared peers carries one. -/
theorem setupDistributedQuorum_follower_layout
    (A B L fr : HostPortPB) (r : QuorumPeerPB → Except Status String)
    (uA uB uLoc uL : String)
    (hA : r ⟨none, some A, Role.FOLLOWER⟩ = Except.ok uA)
    (hB : r ⟨none, some B, Role.FOLLOWER⟩ = Except.ok uB)
    (hLoc : r ⟨none, some fr, Role.FOLLOWER⟩ = Except.ok uLoc)
    (hL : r ⟨none, some L, Role.CANDIDATE⟩ = Except.ok uL)
    (h1 : uA ≠ "") (h2 : uB ≠ "") (h3 : uLoc ≠ "") (h4 : uL ≠ "")
    (d1 : uA ≠ uB) (d2 : uA ≠ uLoc) (d3 : uA ≠ uL)
    (d4 : uB ≠ uLoc) (d5 : uB ≠ uL) (d6 : uLoc ≠ uL)
    (a1 : A.host ≠ "") (a2 : B.host ≠ "") (a3 : fr.host ≠ "") (a4 : L.host ≠ "") :
    setupDistributedQuorum ⟨false, [A, B], L, true⟩ fr 0 r =
      Except.ok ⟨0, false,
        [⟨some uA, some A, Role.FOLLOWER⟩,
         ⟨some uB, some B, Role.FOLLOWER⟩,
         ⟨some uLoc, some fr, Role.FOLLOWER⟩,
         ⟨some uL, some L, Role.CANDIDATE⟩]⟩ := by
  have hdecl : declaredPeers ⟨false, [A, B], L, true⟩ fr =
      [⟨none, some A, Role.FOLLOWER⟩, ⟨none, some B, Role.FOLLOWER⟩,
       ⟨none, some fr, Role.FOLLOWER⟩, ⟨none, some L, Role.CANDIDATE⟩] := by
    simp [declaredPeers]
  have hres : resolvePeers r (declaredPeers ⟨false, [A, B], L, true⟩ fr) =
      Except.ok
        [⟨some uA, some A, Role.FOLLOWER⟩, ⟨some uB, some B, Role.FOLLOWER⟩,
         ⟨some uLoc, some fr, Role.FOLLOWER⟩, ⟨some uL, some L, Role.CANDIDATE⟩] := by
    rw [hdecl]
    simp [resolvePeers, resolvePeer, hA, hB, hLoc, hL]
  have hchk : quorumCheck ⟨0, false,
      [⟨some uA, some A, Role.FOLLOWER⟩, ⟨some uB, some B, Role.FOLLOWER⟩,
       ⟨some uLoc, some fr, Role.FOLLOWER⟩, ⟨some uL, some L, Role.CANDIDATE⟩]⟩
        = true := by
    simp [quorumCheck, peerUuidOk, peerAddrOk, quorumUuids, countLeaders,
          hasLeaderOrCandidate, List.Nodup, h1, h2, h3, h4, d1, d2, d3, d4, d5, d6,
          a1, a2, a3, a4]
  simp [setupDistributedQuorum, hres, verifyQuorum, hchk]

/-- The uuid lookup used by the C3 witness: derive the uuid from the host
of the last known address. -/
def resolverW : QuorumPeerPB → Except Status String :=
  fun p =>
    match p.last_known_addr with
    | some a => Except.ok ("uuid-" ++ a.host)
    | none => Except.error (Status.illegalState "no address")

/-- Witness for C3 on four concrete addresses with distinct uuids. -/
theorem setupDistributedQuorum_follower_layout_witness :
    (resolverW ⟨none, some ⟨"hosta", 1⟩, Role.FOLLOWER⟩ = Except.ok "uuid-hosta")
    ∧ setupDistributedQuorum ⟨false, [⟨"hosta", 1⟩, ⟨"hostb", 2⟩], ⟨"hostl", 3⟩, true⟩
        ⟨"hostm", 4⟩ 0 resolverW =
      Except.ok ⟨0, false,
        [⟨some "uuid-hosta", some ⟨"hosta", 1⟩, Role.FOLLOWER⟩,
         ⟨some "uuid-hostb", some ⟨"hostb", 2⟩, Role.FOLLOWER⟩,
         ⟨some "uuid-hostm", some ⟨"hostm", 4⟩, Role.FOLLOWER⟩,
         ⟨some "uuid-hostl", some ⟨"hostl", 3⟩, Role.CANDIDATE⟩]⟩ :=
  ⟨rfl, setupDistributedQuorum_follower_layout _ _ _ _ resolverW _ _ _ _
    rfl rfl rfl rfl (by decide) (by decide) (by decide) (by decide)
    (by decide) (by decide) (by decide) (by decide) (by decide) (by decide)
    (by decide) (by decide) (by decide) (by decide)⟩

end Kudu
